import Mathlib

/-!
Shallow embedding of the LSP dead-code-scan client in `src/src/lib.rs`.

The client drives a rust-analyzer process over JSON-RPC on stdin/stdout.
We model the transport by scripts: functions giving, for each read, the
inbound `Message` the transport yields.  Panics (`panic!`, `unreachable!`,
failed `assert!`, `Option::unwrap` on `None`, serde `from_value` failures,
and debug-build `i32` overflow) are modelled as `Fatal` outcomes.
Writes, reads, sleeps and `eprintln` findings are recorded as `Event`s so
that ordering properties can be stated on the produced trace.
-/

namespace LspClient

/-- Position in a text document (`lsp_types::Position`).  Both fields are
`u32` in the source; they are carried here as `Nat`, and the one arithmetic
operation the client performs on them — the character shift of the query
position — is modelled with its checked-`u32` overflow panic in
`queryPosition`. -/
structure Position where
  line : Nat
  character : Nat
deriving DecidableEq

/-- Range in a text document (`lsp_types::Range`). -/
structure Range where
  start : Position
  «end» : Position
deriving DecidableEq

/-- Location (`lsp_types::Location`): document uri plus range. -/
structure Location where
  uri : String
  range : Range
deriving DecidableEq

/-- LocationLink (`lsp_types::LocationLink`); only its presence in a list is
used by the client (`arr.len()`). -/
structure LocationLink where
  targetUri : String
  targetRange : Range
deriving DecidableEq

/-- GotoDefinitionResponse (`lsp_types::GotoDefinitionResponse`): the shape the
client deserializes a references answer into — a single scalar location, an
array of locations, or an array of location links. -/
inductive GotoDefinitionResponse
  | scalar : Location → GotoDefinitionResponse
  | array : List Location → GotoDefinitionResponse
  | link : List LocationLink → GotoDefinitionResponse
deriving DecidableEq

/-- SymbolKind (`lsp_types::SymbolKind` is an integer newtype). -/
abbrev SymbolKind := Int

/-- The FUNCTION symbol kind constant (`lsp_types::SymbolKind::FUNCTION`). -/
def SymbolKind.FUNCTION : SymbolKind := 12

/-- SymbolInformation as used by the scan: name, kind and declaration
location. -/
structure SymbolInformation where
  name : String
  kind : SymbolKind
  location : Location
deriving DecidableEq

/-- Parameters of a references request as the client builds them:
document uri, query position, and the include-declaration flag. -/
structure ReferenceParams where
  uri : String
  position : Position
  includeDeclaration : Bool
deriving DecidableEq

/-- JSON values, modelled only as structurally as the client inspects them:
`null`, opaque serialized payloads, a serialized workspace-symbol result and a
serialized references result. -/
inductive Value
  | null
  | payload : String → Value
  | symbolList : List SymbolInformation → Value
  | refs : GotoDefinitionResponse → Value
  | refParams : ReferenceParams → Value
deriving DecidableEq

/-- Request id (`lsp_server::RequestId` built from an `i32`). -/
abbrev RequestId := Int

/-- Request (`lsp_server::Request`): id, method, params. -/
structure Request where
  id : RequestId
  method : String
  params : Value
deriving DecidableEq

/-- Response error (`lsp_server::ResponseError`): code and message. -/
structure ResponseError where
  code : Int
  message : String
deriving DecidableEq

/-- Response (`lsp_server::Response`): id, optional result, optional error.
A JSON `"result": null` deserializes to `result = none`. -/
structure Response where
  id : RequestId
  result : Option Value
  error : Option ResponseError
deriving DecidableEq

/-- Notification (`lsp_server::Notification`): method and params, no id. -/
structure Notification where
  method : String
  params : Value
deriving DecidableEq

/-- Message (`lsp_server::Message`): tagged union of request, response and
notification. -/
inductive Message
  | request : Request → Message
  | response : Response → Message
  | notification : Notification → Message
deriving DecidableEq

/-- The distinguished busy error code,
`lsp_server::ErrorCode::ContentModified as i32`. -/
def contentModified : Int := -32801

/-- Fatal outcomes: each constructor corresponds to one way the Rust test
aborts (panics) at runtime. -/
inductive Fatal
  | protocolViolation
  | serverError : ResponseError → Fatal
  | timeout
  | idOverflow
  | charOverflow
  | assertFailed
  | unwrapNone
  | parseError
deriving DecidableEq

/-- Observable events of a run: transport writes and reads, backoff sleeps
(milliseconds), and findings printed to stderr. -/
inductive Event
  | write : Message → Event
  | read : Message → Event
  | sleep : Nat → Event
  | printFinding : String → String → Event
deriving DecidableEq

/-- Largest `i32` value. -/
def i32Max : Int := 2147483647

/-- The request id allocator state (`struct ReqId(i32)`). -/
structure ReqId where
  val : Int
deriving DecidableEq

/-- ReqId::inc — `self.0 += 1` then return the new value as the id.  The test
profile compiles with overflow checks, so incrementing past `i32::MAX`
panics, modelled as `none`. -/
def ReqId.inc (st : ReqId) : Option (ReqId × RequestId) :=
  if st.val + 1 ≤ i32Max then some (⟨st.val + 1⟩, st.val + 1) else none

/-- The ids returned by `n` successive `ReqId::inc` calls from state `st`
(`none` when some call overflows). -/
def idSeq (st : ReqId) : Nat → Option (List RequestId)
  | 0 => some []
  | Nat.succ n =>
    match st.inc with
    | none => none
    | some (st1, id) => (idSeq st1 n).map (fun ids => id :: ids)

/-- MessageExt::as_resp — a response is returned as is; any other message hits
`unreachable!`, modelled as `none`. -/
def Message.as_resp : Message → Option Response
  | .response rsp => some rsp
  | _ => none

/-- Ctx::send_req — writes the request, reads one message (`inbound`),
requires it to be a response, panics on any error in it, and otherwise
returns its (possibly absent) result.  The response id is never inspected. -/
def send_req (req : Request) (inbound : Message) :
    List Event × Except Fatal (Option Value) :=
  let evs := [Event.write (.request req), Event.read inbound]
  match inbound.as_resp with
  | none => (evs, .error .protocolViolation)
  | some rsp =>
    match rsp.error with
    | some err => (evs, .error (.serverError err))
    | none => (evs, .ok rsp.result)

/-- Method string of the readiness probe
(`rust_analyzer::lsp_ext::AnalyzerStatus::METHOD`). -/
def analyzerStatusMethod : String := "rust-analyzer/analyzerStatus"

/-- Serialized `AnalyzerStatusParams` with no text document, kept opaque. -/
def analyzerStatusParams : Value := .payload "AnalyzerStatusParams textDocument None"

/-- The fixed backoff sequence of Ctx::wait_rust_analyzer_cargo_check,
milliseconds. -/
def backoffDelays : List Nat := [40, 80, 160, 160, 320, 320, 640, 2560, 10240]

deriving instance DecidableEq for Except

/-- Result of the readiness wait: the events produced, the outcome, the ids
under which probes were actually written, and the final allocator state. -/
structure WaitOut where
  events : List Event
  outcome : Except Fatal Unit
  sentIds : List RequestId
  finalState : ReqId
deriving DecidableEq

/-- Body of the `for delay_ms in [...]` loop of
Ctx::wait_rust_analyzer_cargo_check.  Per iteration: allocate a fresh id,
write the probe, read one message (`script i`), require a response; a non-busy
error panics; no error returns success before any sleep; the busy error
(`ContentModified`) falls through to the sleep and the next iteration.
Exhausting the list hits `unreachable!("req_to_ra timeout")`. -/
def wait_loop (script : Nat → Message) (i : Nat) (st : ReqId) :
    List Nat → WaitOut
  | [] => ⟨[], .error .timeout, [], st⟩
  | d :: rest =>
    match st.inc with
    | none => ⟨[], .error .idOverflow, [], st⟩
    | some (st1, id) =>
      let msg := Message.request ⟨id, analyzerStatusMethod, analyzerStatusParams⟩
      let evs := [Event.write msg, Event.read (script i)]
      match (script i).as_resp with
      | none => ⟨evs, .error .protocolViolation, [id], st1⟩
      | some rsp =>
        match rsp.error with
        | some err =>
          if err.code ≠ contentModified then
            ⟨evs, .error (.serverError err), [id], st1⟩
          else
            let r := wait_loop script (i + 1) st1 rest
            ⟨evs ++ [Event.sleep d] ++ r.events, r.outcome, id :: r.sentIds, r.finalState⟩
        | none => ⟨evs, .ok (), [id], st1⟩

/-- Ctx::wait_rust_analyzer_cargo_check — builds a template request under a
freshly allocated id (overwritten on every probe, so that id is burnt and
never written), then runs the backoff loop over `backoffDelays`. -/
def wait_rust_analyzer_cargo_check (script : Nat → Message) (st : ReqId) : WaitOut :=
  match st.inc with
  | none => ⟨[], .error .idOverflow, [], st⟩
  | some (st1, _templateId) => wait_loop script 0 st1 backoffDelays

/-- The sleep durations recorded in an event trace, in order. -/
def sleeps (evs : List Event) : List Nat :=
  evs.filterMap fun e => match e with | .sleep d => some d | _ => none

/-- The requests written in an event trace, in order. -/
def requestWrites (evs : List Event) : List Request :=
  evs.filterMap fun e => match e with | .write (.request r) => some r | _ => none

/-- The findings printed in an event trace, in order, as (path, name). -/
def findings (evs : List Event) : List (String × String) :=
  evs.filterMap fun e => match e with | .printFinding p n => some (p, n) | _ => none

/-- The list `[s+1, s+2, ..., s+n]` of ids handed out by `n` increments from
counter value `s`. -/
def consecIds (s : Int) : Nat → List Int
  | 0 => []
  | n + 1 => (s + 1) :: consecIds (s + 1) n

/-- The reference count the scan derives from a deserialized references
answer: a scalar counts as 1, an array or link list counts its length. -/
def refs_cnt : GotoDefinitionResponse → Nat
  | .scalar _ => 1
  | .array arr => arr.length
  | .link arr => arr.length

/-- serde deserialization of a references result into
`GotoDefinitionResponse` (`from_value::<GotoDefinitionResponse>(rsp)`);
`none` models a deserialization failure, which the `.unwrap()` turns into a
panic. -/
def parseGotoDef : Value → Option GotoDefinitionResponse
  | .refs r => some r
  | _ => none

/-- serde deserialization of a workspace-symbol result
(`from_value::<Option<Vec<SymbolInformation>>>`): JSON null gives
`some none`, a symbol list gives `some (some l)`, anything else fails. -/
def parseSymbolResult : Value → Option (Option (List SymbolInformation))
  | .null => some none
  | .symbolList l => some (some l)
  | _ => none

/-- Method string of a references request
(`lsp_types::request::References::METHOD`). -/
def referencesMethod : String := "textDocument/references"

/-- Largest `u32` value. -/
def u32Max : Nat := 4294967295

/-- The query position for a candidate: the declaration range start with its
character advanced by `"pub fn ".len() as u32 + 1` (= 8) to land inside the
identifier.  The test profile compiles with overflow checks, so the `u32`
addition panics — modelled as `none` — when the shifted character would
exceed `u32::MAX`. -/
def queryPosition (loc : Location) : Option Position :=
  if loc.range.start.character + ("pub fn ".length + 1) ≤ u32Max then
    some { loc.range.start with
           character := loc.range.start.character + ("pub fn ".length + 1) }
  else none

/-- Result of the scan phase: events produced, outcome, and the final
request-id allocator state. -/
structure ScanOut where
  events : List Event
  outcome : Except Fatal Unit
  finalState : ReqId
deriving DecidableEq

/-- The `for symbol in workspace_symbol_rsp.unwrap()` loop of the test.
Non-function symbols and symbols named "main" are skipped without any
request.  Otherwise the query position is computed (the checked character
shift panics before anything is sent), a references request is sent under a
fresh id at that position with include-declaration false; `refsScript q` is
the message the transport yields for the `q`-th references query.  An absent
result prints a note and proceeds; a present result is deserialized and a
reference count of zero prints a dead-code finding. -/
def scan_loop (refsScript : Nat → Message) (st : ReqId) (q : Nat) :
    List SymbolInformation → ScanOut
  | [] => ⟨[], .ok (), st⟩
  | sym :: rest =>
    if sym.kind ≠ SymbolKind.FUNCTION then scan_loop refsScript st q rest
    else if sym.name = "main" then scan_loop refsScript st q rest
    else
      let path := sym.location.uri
      match queryPosition sym.location with
      | none => ⟨[], .error .charOverflow, st⟩
      | some p =>
      match st.inc with
      | none => ⟨[], .error .idOverflow, st⟩
      | some (st1, id) =>
        let req : Request :=
          ⟨id, referencesMethod, .refParams ⟨sym.location.uri, p, false⟩⟩
        let sr := send_req req (refsScript q)
        match sr.2 with
        | .error f => ⟨sr.1, .error f, st1⟩
        | .ok none =>
          let out := scan_loop refsScript st1 (q + 1) rest
          ⟨sr.1 ++ out.events, out.outcome, out.finalState⟩
        | .ok (some v) =>
          match parseGotoDef v with
          | none => ⟨sr.1, .error .parseError, st1⟩
          | some rsp =>
            let fevs :=
              if refs_cnt rsp = 0 then [Event.printFinding path sym.name] else []
            let out := scan_loop refsScript st1 (q + 1) rest
            ⟨sr.1 ++ fevs ++ out.events, out.outcome, out.finalState⟩

/-- Serialized `InitializeParams`: the workspace root uri and the
configuration option disabling check-on-save, kept opaque. -/
def initParams : Value :=
  .payload "InitializeParams root file:///home/w/repos/temp/unused_pub_test_case checkOnSave.enable false"

/-- Serialized `InitializedParams`, kept opaque. -/
def initedNotifParams : Value := .payload "InitializedParams"

/-- Scripted transport for one whole run: the message read back after the
handshake request, after the `i`-th readiness probe, after the
workspace-symbol request, after the `q`-th references query, and after the
shutdown request. -/
structure RunScript where
  initResp : Message
  statusScript : Nat → Message
  symbolResp : Message
  refsScript : Nat → Message
  shutdownResp : Message

/-- Ctx::init — writes the handshake request under a fresh id, reads one
message, requires a response, `assert!`s it carries no error, writes the
"initialized" notification, then runs the readiness wait. -/
def Ctx.init (script : RunScript) (st : ReqId) :
    List Event × Except Fatal Unit × ReqId :=
  match st.inc with
  | none => ([], .error .idOverflow, st)
  | some (st1, id) =>
    let req : Request := ⟨id, "initialize", initParams⟩
    let evs0 := [Event.write (.request req), Event.read script.initResp]
    match script.initResp.as_resp with
    | none => (evs0, .error .protocolViolation, st1)
    | some rsp =>
      match rsp.error with
      | some _ => (evs0, .error .assertFailed, st1)
      | none =>
        let evs1 := evs0 ++ [Event.write (.notification ⟨"initialized", initedNotifParams⟩)]
        let w := wait_rust_analyzer_cargo_check script.statusScript st1
        (evs1 ++ w.events, w.outcome, w.finalState)

/-- Ctx::exit — sends the shutdown request through `send_req` (writing it and
consuming its response), then writes the "exit" notification. -/
def Ctx.exit (st : ReqId) (inbound : Message) :
    List Event × Except Fatal Unit :=
  match st.inc with
  | none => ([], .error .idOverflow)
  | some (_st1, id) =>
    let req : Request := ⟨id, "shutdown", Value.null⟩
    let sr := send_req req inbound
    match sr.2 with
    | .error f => (sr.1, .error f)
    | .ok _ =>
      (sr.1 ++ [Event.write (.notification ⟨"exit", Value.null⟩)], .ok ())

/-- Serialized `WorkspaceSymbolParams`: all-symbols search kind plus a
progress token holding the current allocator value (read back after the
id was allocated, so it equals the request id). -/
def workspaceSymbolParams (token : Int) : Value :=
  .payload ("WorkspaceSymbolParams AllSymbols token " ++ toString token)

/-- Method string of the workspace-symbol request
(`rust_analyzer::lsp_ext::WorkspaceSymbol::METHOD`). -/
def workspaceSymbolMethod : String := "workspace/symbol"

/-- The whole test `find_dead_code_in_cargo_workspace`, process spawning
aside: handshake and readiness wait, workspace-symbol query, the scan loop,
then teardown.  Returns the full event trace and the outcome. -/
def find_dead_code_in_cargo_workspace (script : RunScript) :
    List Event × Except Fatal Unit :=
  let st0 : ReqId := ⟨0⟩
  let ir := Ctx.init script st0
  match ir.2.1 with
  | .error f => (ir.1, .error f)
  | .ok () =>
    let st1 := ir.2.2
    match st1.inc with
    | none => (ir.1, .error .idOverflow)
    | some (st2, id) =>
      let wsReq : Request := ⟨id, workspaceSymbolMethod, workspaceSymbolParams st2.val⟩
      let sr := send_req wsReq script.symbolResp
      match sr.2 with
      | .error f => (ir.1 ++ sr.1, .error f)
      | .ok none => (ir.1 ++ sr.1, .error .unwrapNone)
      | .ok (some v) =>
        match parseSymbolResult v with
        | none => (ir.1 ++ sr.1, .error .parseError)
        | some none => (ir.1 ++ sr.1, .error .unwrapNone)
        | some (some symbols) =>
          let sOut := scan_loop script.refsScript st2 0 symbols
          match sOut.outcome with
          | .error f => (ir.1 ++ sr.1 ++ sOut.events, .error f)
          | .ok () =>
            let er := Ctx.exit sOut.finalState script.shutdownResp
            (ir.1 ++ sr.1 ++ sOut.events ++ er.1, er.2)

/-- A busy response: the error carries the `ContentModified` code (the
response id plays no role anywhere in the client). -/
def busyMsg : Message :=
  .response ⟨0, none, some ⟨contentModified, "waiting for cargo metadata or cargo check"⟩⟩

/-- A successful analyzer-status response. -/
def okMsg : Message := .response ⟨0, some (.payload "analyzer status"), none⟩

/-- A scripted server that is busy for the first `K` probes and succeeds on
probe `K + 1`. -/
def scriptBusyThenOk (K : Nat) (i : Nat) : Message :=
  if i < K then busyMsg else okMsg

/-- The notifications written in an event trace, in order. -/
def notifWrites (evs : List Event) : List Notification :=
  evs.filterMap fun e => match e with | .write (.notification n) => some n | _ => none

/-- Sample declaration location, as in the workspace fixture of the test. -/
def sampleLoc : Location := ⟨"file:///crates/pub_util/src/lib.rs", ⟨⟨1, 0⟩, ⟨1, 22⟩⟩⟩

/-- Sample dead function candidate. -/
def sampleDeadSymbol : SymbolInformation := ⟨"unused_pub", SymbolKind.FUNCTION, sampleLoc⟩

/-- Sample entry-point symbol, excluded from querying. -/
def sampleMainSymbol : SymbolInformation := ⟨"main", SymbolKind.FUNCTION, sampleLoc⟩

/-- Sample function candidate declared at a character so close to `u32::MAX`
that the checked query-position shift overflows. -/
def sampleOverflowSymbol : SymbolInformation :=
  ⟨"huge_fn", SymbolKind.FUNCTION,
    ⟨"file:///crates/pub_util/src/lib.rs", ⟨⟨0, 4294967290⟩, ⟨0, 4294967295⟩⟩⟩⟩

/-- A references answer that is a present, empty location array. -/
def zeroRefsMsg : Message := .response ⟨0, some (.refs (.array [])), none⟩

/-- A references answer that is a present array with one location. -/
def oneRefMsg : Message := .response ⟨0, some (.refs (.array [sampleLoc])), none⟩

/-- A references answer whose result is absent (JSON null). -/
def absentMsg : Message := .response ⟨0, none, none⟩

/-- A references answer that is a present single scalar location. -/
def scalarRefMsg : Message := .response ⟨0, some (.refs (.scalar sampleLoc)), none⟩

/-- A scripted transport for a whole successful run over an empty workspace. -/
def sampleScript : RunScript :=
  { initResp := okMsg
    statusScript := fun _ => okMsg
    symbolResp := .response ⟨0, some (.symbolList []), none⟩
    refsScript := fun _ => okMsg
    shutdownResp := .response ⟨0, none, none⟩ }

lemma sleeps_append (a b : List Event) : sleeps (a ++ b) = sleeps a ++ sleeps b :=
  List.filterMap_append a b _

lemma requestWrites_append (a b : List Event) :
    requestWrites (a ++ b) = requestWrites a ++ requestWrites b :=
  List.filterMap_append a b _

lemma findings_append (a b : List Event) :
    findings (a ++ b) = findings a ++ findings b :=
  List.filterMap_append a b _

lemma notifWrites_append (a b : List Event) :
    notifWrites (a ++ b) = notifWrites a ++ notifWrites b :=
  List.filterMap_append a b _

lemma ReqId.inc_eq_of_le (st : ReqId) (h : st.val + 1 ≤ i32Max) :
    st.inc = some (⟨st.val + 1⟩, st.val + 1) := by
  unfold ReqId.inc
  rw [if_pos h]

lemma ReqId.inc_cases (st : ReqId) :
    st.inc = none ∨ st.inc = some (⟨st.val + 1⟩, st.val + 1) := by
  unfold ReqId.inc
  split
  · exact Or.inr rfl
  · exact Or.inl rfl

lemma consecIds_length (s : Int) (n : Nat) : (consecIds s n).length = n := by
  induction n generalizing s with
  | zero => rfl
  | succ n ih => simp [consecIds, ih]

lemma consecIds_mem_gt (s : Int) (n : Nat) : ∀ id ∈ consecIds s n, s < id := by
  induction n generalizing s with
  | zero => intro id h; simp [consecIds] at h
  | succ n ih =>
    intro id h
    simp only [consecIds, List.mem_cons] at h
    rcases h with h | h
    · omega
    · have := ih (s + 1) id h
      omega

lemma consecIds_pairwise (s : Int) (n : Nat) :
    List.Pairwise (· < ·) (consecIds s n) := by
  induction n generalizing s with
  | zero => exact List.Pairwise.nil
  | succ n ih =>
    refine List.Pairwise.cons ?_ (ih (s + 1))
    intro b hb
    have := consecIds_mem_gt (s + 1) n b hb
    omega

lemma consecIds_nodup (s : Int) (n : Nat) : (consecIds s n).Nodup :=
  (consecIds_pairwise s n).imp (fun h => ne_of_lt h)

lemma consecIds_head (s : Int) (n : Nat) (h : 0 < n) :
    (consecIds s n).head? = some (s + 1) := by
  cases n with
  | zero => omega
  | succ n => rfl

lemma idSeq_eq_consecIds (n : Nat) :
    ∀ (st : ReqId) (ids : List RequestId),
      idSeq st n = some ids → ids = consecIds st.val n := by
  induction n with
  | zero =>
    intro st ids h
    simp [idSeq] at h
    simp [h, consecIds]
  | succ n ih =>
    intro st ids h
    rcases ReqId.inc_cases st with hinc | hinc
    · simp [idSeq, hinc] at h
    · have hstep : idSeq st (n + 1) = (idSeq ⟨st.val + 1⟩ n).map (fun l => (st.val + 1) :: l) := by
        simp [idSeq, hinc]
      rcases htl : idSeq ⟨st.val + 1⟩ n with _ | tl
      · rw [hstep, htl] at h
        simp at h
      · rw [hstep, htl] at h
        simp at h
        subst h
        rw [ih _ tl htl]
        rfl

lemma wait_loop_busy_step (script : Nat → Message) (i : Nat) (st : ReqId) (d : Nat)
    (rest : List Nat) (hinc : st.val + 1 ≤ i32Max) (h0 : script i = busyMsg) :
    wait_loop script i st (d :: rest) =
      ⟨[Event.write (.request ⟨st.val + 1, analyzerStatusMethod, analyzerStatusParams⟩),
        Event.read busyMsg, Event.sleep d]
          ++ (wait_loop script (i + 1) ⟨st.val + 1⟩ rest).events,
        (wait_loop script (i + 1) ⟨st.val + 1⟩ rest).outcome,
        (st.val + 1) :: (wait_loop script (i + 1) ⟨st.val + 1⟩ rest).sentIds,
        (wait_loop script (i + 1) ⟨st.val + 1⟩ rest).finalState⟩ := by
  simp [wait_loop, ReqId.inc_eq_of_le st hinc, h0, busyMsg, Message.as_resp, contentModified]

lemma wait_loop_ok_step (script : Nat → Message) (i : Nat) (st : ReqId) (d : Nat)
    (rest : List Nat) (hinc : st.val + 1 ≤ i32Max) (h0 : script i = okMsg) :
    wait_loop script i st (d :: rest) =
      ⟨[Event.write (.request ⟨st.val + 1, analyzerStatusMethod, analyzerStatusParams⟩),
        Event.read okMsg],
        .ok (), [st.val + 1], ⟨st.val + 1⟩⟩ := by
  simp [wait_loop, ReqId.inc_eq_of_le st hinc, h0, okMsg, Message.as_resp]

lemma wait_loop_busyK (delays : List Nat) :
    ∀ (script : Nat → Message) (K i : Nat) (st : ReqId),
      (∀ j, j < K → script (i + j) = busyMsg) →
      script (i + K) = okMsg →
      K < delays.length →
      st.val + (K + 1) ≤ i32Max →
      (wait_loop script i st delays).outcome = .ok () ∧
      sleeps (wait_loop script i st delays).events = delays.take K ∧
      (wait_loop script i st delays).sentIds = consecIds st.val (K + 1) ∧
      (requestWrites (wait_loop script i st delays).events).length = K + 1 := by
  induction delays with
  | nil =>
    intro script K i st _ _ hlen _
    simp at hlen
  | cons d rest ih =>
    intro script K i st hbusy hok hlen hov
    cases K with
    | zero =>
      have h0 : script i = okMsg := by simpa using hok
      rw [wait_loop_ok_step script i st d rest (by omega) h0]
      simp [sleeps, requestWrites, consecIds, List.filterMap]
    | succ K =>
      have h0 : script i = busyMsg := by
        have := hbusy 0 (Nat.succ_pos K)
        simpa using this
      have hbusy1 : ∀ j, j < K → script (i + 1 + j) = busyMsg := by
        intro j hj
        have := hbusy (j + 1) (by omega)
        rwa [show i + (j + 1) = i + 1 + j by omega] at this
      have hok1 : script (i + 1 + K) = okMsg := by
        rwa [show i + (K + 1) = i + 1 + K by omega] at hok
      have ihr := ih script K (i + 1) ⟨st.val + 1⟩ hbusy1 hok1 (by simpa using hlen)
        (by simp; omega)
      rw [wait_loop_busy_step script i st d rest (by omega) h0]
      refine ⟨ihr.1, ?_, ?_, ?_⟩
      · simp only [sleeps_append, ihr.2.1]
        simp [sleeps, List.filterMap]
      · simp [consecIds, ihr.2.2.1]
      · simp only [requestWrites_append, List.length_append, ihr.2.2.2]
        simp [requestWrites, List.filterMap]
        omega

lemma wait_loop_allBusy (delays : List Nat) :
    ∀ (script : Nat → Message) (i : Nat) (st : ReqId),
      (∀ j, script j = busyMsg) →
      st.val + delays.length ≤ i32Max →
      (wait_loop script i st delays).outcome = .error .timeout ∧
      sleeps (wait_loop script i st delays).events = delays ∧
      (wait_loop script i st delays).sentIds = consecIds st.val delays.length ∧
      (requestWrites (wait_loop script i st delays).events).length = delays.length := by
  induction delays with
  | nil =>
    intro script i st _ _
    simp [wait_loop, sleeps, requestWrites, consecIds, List.filterMap]
  | cons d rest ih =>
    intro script i st hbusy hov
    have ihr := ih script (i + 1) ⟨st.val + 1⟩ hbusy (by simp at hov ⊢; omega)
    rw [wait_loop_busy_step script i st d rest (by simp at hov; omega) (hbusy i)]
    refine ⟨ihr.1, ?_, ?_, ?_⟩
    · simp only [sleeps_append, ihr.2.1]
      simp [sleeps, List.filterMap]
    · simp [consecIds, ihr.2.2.1]
    · simp only [requestWrites_append, List.length_append, ihr.2.2.2]
      simp [requestWrites, List.filterMap]
      omega

lemma wait_loop_sentIds (script : Nat → Message) (delays : List Nat) :
    ∀ (i : Nat) (st : ReqId),
      List.Pairwise (· < ·) (wait_loop script i st delays).sentIds ∧
      ∀ id ∈ (wait_loop script i st delays).sentIds, st.val < id := by
  induction delays with
  | nil =>
    intro i st
    simp [wait_loop]
  | cons d rest ih =>
    intro i st
    rcases ReqId.inc_cases st with hinc | hinc
    · simp [wait_loop, hinc]
    · have ihr := ih (i + 1) ⟨st.val + 1⟩
      simp only [wait_loop, hinc]
      split
      · simp
      · split
        · split
          · simp
          · refine ⟨List.Pairwise.cons ?_ ihr.1, ?_⟩
            · intro b hb
              exact ihr.2 b hb
            · intro b hb
              simp at hb
              rcases hb with hb | hb
              · subst hb
                omega
              · exact lt_trans (by omega : st.val < st.val + 1) (ihr.2 b hb)
        · simp

lemma wait_loop_notifWrites (script : Nat → Message) (delays : List Nat) :
    ∀ (i : Nat) (st : ReqId),
      notifWrites (wait_loop script i st delays).events = [] := by
  induction delays with
  | nil =>
    intro i st
    simp [wait_loop, notifWrites]
  | cons d rest ih =>
    intro i st
    rcases ReqId.inc_cases st with hinc | hinc
    · simp [wait_loop, hinc, notifWrites]
    · have ihr := ih (i + 1) ⟨st.val + 1⟩
      simp only [wait_loop, hinc]
      split
      · simp [notifWrites, List.filterMap]
      · split
        · split
          · simp [notifWrites, List.filterMap]
          · simp only [notifWrites_append, ihr]
            simp [notifWrites, List.filterMap_cons]
        · simp [notifWrites, List.filterMap]

lemma send_req_events (req : Request) (m : Message) :
    (send_req req m).1 = [Event.write (.request req), Event.read m] := by
  unfold send_req
  rcases m with r | rsp | n
  · rfl
  · rcases h : rsp.error with _ | err <;> simp [Message.as_resp, h]
  · rfl

lemma send_req_nonResponse (req : Request) (m : Message) (h : m.as_resp = none) :
    (send_req req m).2 = .error .protocolViolation := by
  simp [send_req, h]

lemma send_req_error_resp (req : Request) (rsp : Response) (err : ResponseError)
    (h : rsp.error = some err) :
    (send_req req (.response rsp)).2 = .error (.serverError err) := by
  simp [send_req, Message.as_resp, h]

lemma send_req_ok_resp (req : Request) (rsp : Response) (h : rsp.error = none) :
    (send_req req (.response rsp)).2 = .ok rsp.result := by
  simp [send_req, Message.as_resp, h]

lemma wait_loop_fatal_step (script : Nat → Message) (i : Nat) (st : ReqId) (d : Nat)
    (rest : List Nat) (rid : RequestId) (res : Option Value) (err : ResponseError)
    (hinc : st.val + 1 ≤ i32Max) (h0 : script i = .response ⟨rid, res, some err⟩)
    (hcode : err.code ≠ contentModified) :
    wait_loop script i st (d :: rest) =
      ⟨[Event.write (.request ⟨st.val + 1, analyzerStatusMethod, analyzerStatusParams⟩),
        Event.read (script i)],
        .error (.serverError err), [st.val + 1], ⟨st.val + 1⟩⟩ := by
  simp [wait_loop, ReqId.inc_eq_of_le st hinc, h0, Message.as_resp, hcode]

lemma scan_loop_notifWrites (refsScript : Nat → Message) :
    ∀ (syms : List SymbolInformation) (st : ReqId) (q : Nat),
      notifWrites (scan_loop refsScript st q syms).events = [] := by
  intro syms
  induction syms with
  | nil =>
    intro st q
    simp [scan_loop, notifWrites]
  | cons sym rest ih =>
    intro st q
    simp only [scan_loop]
    split
    · exact ih st q
    · split
      · exact ih st q
      · rcases hqp : queryPosition sym.location with _ | p
        · simp [hqp, notifWrites]
        · simp only [hqp]
          rcases ReqId.inc_cases st with hinc | hinc
          · simp [hinc, notifWrites]
          · simp only [hinc]
            split
            · rw [send_req_events]
              simp [notifWrites, List.filterMap]
            · simp only [notifWrites_append, send_req_events, ih]
              simp [notifWrites, List.filterMap]
            · split
              · rw [send_req_events]
                simp [notifWrites, List.filterMap]
              · simp only [notifWrites_append, send_req_events, ih]
                split <;> simp [notifWrites, List.filterMap]

lemma wait_check_notifWrites (script : Nat → Message) (st : ReqId) :
    notifWrites (wait_rust_analyzer_cargo_check script st).events = [] := by
  unfold wait_rust_analyzer_cargo_check
  rcases ReqId.inc_cases st with hinc | hinc <;> rw [hinc]
  · simp [notifWrites]
  · exact wait_loop_notifWrites script backoffDelays 0 ⟨st.val + 1⟩

lemma init_ok_notifWrites (script : RunScript) (st : ReqId)
    (h : (Ctx.init script st).2.1 = .ok ()) :
    notifWrites (Ctx.init script st).1 = [⟨"initialized", initedNotifParams⟩] := by
  unfold Ctx.init at h ⊢
  split at h
  · simp at h
  · split at h
    · simp at h
    · split at h
      · simp at h
      · simp only [notifWrites_append, wait_check_notifWrites, List.append_nil]
        simp [notifWrites, List.filterMap_cons]

/-- Claim C1 counterexample: the plain correlator does not pair responses by id.
Request id 1 is sent; the message read back is a response carrying id 2 with
a result payload; `send_req` silently accepts it and returns that payload as
the answer, even though the ids differ. -/
theorem send_req_accepts_mismatched_id :
    (2 : RequestId) ≠ (1 : RequestId) ∧
    (send_req ⟨1, referencesMethod, Value.null⟩
        (.response ⟨2, some (.payload "stale answer"), none⟩)).2
      = .ok (some (.payload "stale answer")) :=
  ⟨by decide, rfl⟩

/-- Claim C1 amended: `send_req` never inspects the response id.  Whenever the
message read back is a Response without an error, its result is returned as
the current request's answer, whatever id it carries: the correlator pairs
responses by arrival order only. -/
theorem send_req_pairs_by_arrival_order (req : Request) (rsp : Response)
    (h : rsp.error = none) :
    (send_req req (.response rsp)).2 = .ok rsp.result :=
  send_req_ok_resp req rsp h

/-- Witness for the C1 amended theorem at a concrete mismatched-id input. -/
theorem send_req_pairs_by_arrival_order_witness :
    (⟨2, some (.payload "stale answer"), none⟩ : Response).error = none ∧
    (send_req ⟨1, referencesMethod, Value.null⟩
        (.response ⟨2, some (.payload "stale answer"), none⟩)).2
      = .ok (⟨2, some (.payload "stale answer"), none⟩ : Response).result :=
  ⟨rfl, send_req_pairs_by_arrival_order ⟨1, referencesMethod, Value.null⟩
    ⟨2, some (.payload "stale answer"), none⟩ rfl⟩

/-- Claim C2: during the readiness wait, a server that answers busy on the first K
probes (K < 9) and success on probe K+1 makes the client return success after
exactly K sleeps whose durations are the first K entries of
`[40, 80, 160, 160, 320, 320, 640, 2560, 10240]` in order, having written
exactly K+1 probe requests. -/
theorem wait_succeeds_after_K_backoffs (K : Nat) (st : ReqId)
    (hK : K < 9) (hov : st.val + 10 ≤ i32Max) :
    (wait_rust_analyzer_cargo_check (scriptBusyThenOk K) st).outcome = .ok () ∧
    sleeps (wait_rust_analyzer_cargo_check (scriptBusyThenOk K) st).events
      = backoffDelays.take K ∧
    (requestWrites (wait_rust_analyzer_cargo_check (scriptBusyThenOk K) st).events).length
      = K + 1 := by
  have hinc := ReqId.inc_eq_of_le st (by omega)
  unfold wait_rust_analyzer_cargo_check
  rw [hinc]
  have h := wait_loop_busyK backoffDelays (scriptBusyThenOk K) K 0 ⟨st.val + 1⟩
    (fun j hj => by simp [scriptBusyThenOk, hj])
    (by simp [scriptBusyThenOk])
    (by simp [backoffDelays]; omega)
    (by simp; omega)
  exact ⟨h.1, h.2.1, h.2.2.2⟩

/-- Witness for C2 at K = 3 from the allocator state the run reaches after
the handshake. -/
theorem wait_succeeds_after_K_backoffs_witness :
    (3 < 9 ∧ (⟨1⟩ : ReqId).val + 10 ≤ i32Max) ∧
    ((wait_rust_analyzer_cargo_check (scriptBusyThenOk 3) ⟨1⟩).outcome = .ok () ∧
      sleeps (wait_rust_analyzer_cargo_check (scriptBusyThenOk 3) ⟨1⟩).events
        = backoffDelays.take 3 ∧
      (requestWrites
          (wait_rust_analyzer_cargo_check (scriptBusyThenOk 3) ⟨1⟩).events).length
        = 3 + 1) :=
  ⟨⟨by decide, by decide⟩,
    wait_succeeds_after_K_backoffs 3 ⟨1⟩ (by decide) (by decide)⟩

/-- Claim C3: during the readiness wait, a server that answers busy on all 9 probes
makes the client fail with the timeout condition, after writing exactly 9
probe requests and no 10th. -/
theorem wait_times_out_after_nine_probes (st : ReqId) (hov : st.val + 10 ≤ i32Max) :
    (wait_rust_analyzer_cargo_check (fun _ => busyMsg) st).outcome
      = .error .timeout ∧
    (requestWrites
        (wait_rust_analyzer_cargo_check (fun _ => busyMsg) st).events).length = 9 := by
  have hinc := ReqId.inc_eq_of_le st (by omega)
  unfold wait_rust_analyzer_cargo_check
  rw [hinc]
  have h := wait_loop_allBusy backoffDelays (fun _ => busyMsg) 0 ⟨st.val + 1⟩
    (fun _ => rfl) (by simp [backoffDelays]; omega)
  exact ⟨h.1, h.2.2.2⟩

/-- Witness for C3 at the allocator state the run reaches after the
handshake. -/
theorem wait_times_out_after_nine_probes_witness :
    ((⟨1⟩ : ReqId).val + 10 ≤ i32Max) ∧
    ((wait_rust_analyzer_cargo_check (fun _ => busyMsg) ⟨1⟩).outcome
        = .error .timeout ∧
      (requestWrites
          (wait_rust_analyzer_cargo_check (fun _ => busyMsg) ⟨1⟩).events).length = 9) :=
  ⟨by decide, wait_times_out_after_nine_probes ⟨1⟩ (by decide)⟩

/-- Claim C4: the ids handed out by the allocator starting from the initial state
`ReqId(0)` are pairwise strictly increasing, never repeated, and start from
1; and within the readiness wait every probe retransmission is written under
a freshly allocated id: the ids of the written probes are pairwise strictly
increasing and all exceed the allocator value at loop entry. -/
theorem request_ids_strictly_increasing :
    (∀ (n : Nat) (ids : List RequestId), idSeq ⟨0⟩ n = some ids →
        List.Pairwise (· < ·) ids ∧ ids.Nodup ∧ (0 < n → ids.head? = some 1)) ∧
    (∀ (script : Nat → Message) (delays : List Nat) (i : Nat) (st : ReqId),
        List.Pairwise (· < ·) (wait_loop script i st delays).sentIds ∧
        ∀ id ∈ (wait_loop script i st delays).sentIds, st.val < id) := by
  constructor
  · intro n ids h
    have heq := idSeq_eq_consecIds n ⟨0⟩ ids h
    subst heq
    refine ⟨consecIds_pairwise 0 n, consecIds_nodup 0 n, fun hn => ?_⟩
    have := consecIds_head 0 n hn
    simpa using this
  · intro script delays i st
    exact wait_loop_sentIds script delays i st

/-- Witness for C4: three allocations from the initial state give ids
1, 2, 3, and a concrete readiness loop sends strictly increasing fresh
ids. -/
theorem request_ids_strictly_increasing_witness :
    (List.Pairwise (· < ·) ([1, 2, 3] : List RequestId) ∧
      ([1, 2, 3] : List RequestId).Nodup ∧
      (0 < 3 → ([1, 2, 3] : List RequestId).head? = some 1)) ∧
    (List.Pairwise (· < ·)
        (wait_loop (fun _ => busyMsg) 0 ⟨1⟩ backoffDelays).sentIds ∧
      ∀ id ∈ (wait_loop (fun _ => busyMsg) 0 ⟨1⟩ backoffDelays).sentIds,
        (⟨1⟩ : ReqId).val < id) :=
  ⟨request_ids_strictly_increasing.1 3 [1, 2, 3] (by decide),
    request_ids_strictly_increasing.2 (fun _ => busyMsg) backoffDelays 0 ⟨1⟩⟩

/-- Claim C9: wherever a Response is required, any other message type is fatal:
`as_resp` maps a Request or a Notification to the aborting branch, returns a
Response unchanged (so the non-Response branch is unreachable when the server
answers each request with a Response), and `send_req` aborts with the
protocol-violation outcome exactly when the message read back is not a
Response. -/
theorem non_response_at_response_position_is_fatal :
    (∀ r : Request, (Message.request r).as_resp = none) ∧
    (∀ n : Notification, (Message.notification n).as_resp = none) ∧
    (∀ rsp : Response, (Message.response rsp).as_resp = some rsp) ∧
    (∀ (req : Request) (m : Message),
        (send_req req m).2 = .error .protocolViolation ↔ m.as_resp = none) := by
  refine ⟨fun _ => rfl, fun _ => rfl, fun _ => rfl, fun req m => ?_⟩
  rcases m with r | rsp | n
  · simp [send_req, Message.as_resp]
  · rcases h : rsp.error with _ | err
    · simp [send_req, Message.as_resp, h]
    · simp [send_req, Message.as_resp, h]
  · simp [send_req, Message.as_resp]

/-- Claim C7: the busy error code is recovered only inside the readiness-wait loop
(the loop records the backoff sleep and its result is the retry's result);
a non-busy error code there aborts at once with that server error; any error
code at all, the busy one included, read back through `send_req` — the path
used by the symbol search, the reference queries and the shutdown request —
aborts at once; and an error in the handshake response aborts the run via the
failed assertion. -/
theorem busy_recoverable_only_during_wait :
    (∀ (script : Nat → Message) (i : Nat) (st : ReqId) (d : Nat) (rest : List Nat),
        st.val + 1 ≤ i32Max → script i = busyMsg →
        (wait_loop script i st (d :: rest)).outcome
          = (wait_loop script (i + 1) ⟨st.val + 1⟩ rest).outcome ∧
        sleeps (wait_loop script i st (d :: rest)).events
          = d :: sleeps (wait_loop script (i + 1) ⟨st.val + 1⟩ rest).events) ∧
    (∀ (script : Nat → Message) (i : Nat) (st : ReqId) (d : Nat) (rest : List Nat)
        (rid : RequestId) (res : Option Value) (err : ResponseError),
        st.val + 1 ≤ i32Max → script i = .response ⟨rid, res, some err⟩ →
        err.code ≠ contentModified →
        (wait_loop script i st (d :: rest)).outcome = .error (.serverError err) ∧
        sleeps (wait_loop script i st (d :: rest)).events = []) ∧
    (∀ (req : Request) (rsp : Response) (err : ResponseError),
        rsp.error = some err →
        (send_req req (.response rsp)).2 = .error (.serverError err)) ∧
    (∀ (script : RunScript) (st : ReqId) (rid : RequestId) (res : Option Value)
        (err : ResponseError),
        st.val + 1 ≤ i32Max → script.initResp = .response ⟨rid, res, some err⟩ →
        (Ctx.init script st).2.1 = .error .assertFailed) := by
  refine ⟨?_, ?_, ?_, ?_⟩
  · intro script i st d rest hb h0
    rw [wait_loop_busy_step script i st d rest hb h0]
    refine ⟨rfl, ?_⟩
    simp [sleeps_append, sleeps, List.filterMap_cons]
  · intro script i st d rest rid res err hb h0 hcode
    rw [wait_loop_fatal_step script i st d rest rid res err hb h0 hcode]
    simp [sleeps, List.filterMap_cons]
  · intro req rsp err h
    exact send_req_error_resp req rsp err h
  · intro script st rid res err hb h0
    simp [Ctx.init, ReqId.inc_eq_of_le st hb, h0, Message.as_resp]

/-- Witness for C7: a concrete busy probe retried, a concrete non-busy probe
error aborting, a concrete busy error on a send_req path aborting, and a
concrete handshake error aborting. -/
theorem busy_recoverable_only_during_wait_witness :
    ((wait_loop (fun _ => busyMsg) 0 ⟨1⟩ (40 :: [80])).outcome
        = (wait_loop (fun _ => busyMsg) 1 ⟨2⟩ [80]).outcome ∧
      sleeps (wait_loop (fun _ => busyMsg) 0 ⟨1⟩ (40 :: [80])).events
        = 40 :: sleeps (wait_loop (fun _ => busyMsg) 1 ⟨2⟩ [80]).events) ∧
    ((wait_loop (fun _ => .response ⟨7, none, some ⟨-32603, "internal error"⟩⟩)
          0 ⟨1⟩ (40 :: [80])).outcome
        = .error (.serverError ⟨-32603, "internal error"⟩) ∧
      sleeps (wait_loop (fun _ => .response ⟨7, none, some ⟨-32603, "internal error"⟩⟩)
          0 ⟨1⟩ (40 :: [80])).events = []) ∧
    ((send_req ⟨5, workspaceSymbolMethod, Value.null⟩
        (.response ⟨5, none, some ⟨contentModified, "busy"⟩⟩)).2
      = .error (.serverError ⟨contentModified, "busy"⟩)) ∧
    ((Ctx.init
        { initResp := .response ⟨1, none, some ⟨-32600, "invalid"⟩⟩
          statusScript := fun _ => okMsg
          symbolResp := okMsg
          refsScript := fun _ => okMsg
          shutdownResp := okMsg } ⟨0⟩).2.1 = .error .assertFailed) :=
  ⟨busy_recoverable_only_during_wait.1 (fun _ => busyMsg) 0 ⟨1⟩ 40 [80]
      (by decide) rfl,
    busy_recoverable_only_during_wait.2.1
      (fun _ => .response ⟨7, none, some ⟨-32603, "internal error"⟩⟩) 0 ⟨1⟩ 40 [80]
      7 none ⟨-32603, "internal error"⟩ (by decide) rfl (by decide),
    busy_recoverable_only_during_wait.2.2.1 ⟨5, workspaceSymbolMethod, Value.null⟩
      ⟨5, none, some ⟨contentModified, "busy"⟩⟩ ⟨contentModified, "busy"⟩ rfl,
    busy_recoverable_only_during_wait.2.2.2
      { initResp := .response ⟨1, none, some ⟨-32600, "invalid"⟩⟩
        statusScript := fun _ => okMsg
        symbolResp := okMsg
        refsScript := fun _ => okMsg
        shutdownResp := okMsg } ⟨0⟩ 1 none ⟨-32600, "invalid"⟩ (by decide) rfl⟩

/-- Claim C5: classification of a queried candidate (a function symbol not named
"main", whose checked character shift stays within `u32` so the query is
actually issued, under a successfully allocated id).  A present references
answer of length 0 yields exactly one finding, the candidate's uri and name,
prepended to whatever the remaining candidates yield; a present answer of
length ≥ 1 yields no finding for this candidate; an absent (null) answer
yields no finding and no error, the scan proceeding to the remaining
candidates.  In each case the loop outcome is that of the remaining
candidates. -/
theorem reference_classification (refsScript : Nat → Message) (st st1 : ReqId)
    (q : Nat) (id : RequestId) (sym : SymbolInformation)
    (rest : List SymbolInformation) (p : Position)
    (hkind : sym.kind = SymbolKind.FUNCTION) (hname : sym.name ≠ "main")
    (hpos : queryPosition sym.location = some p)
    (hinc : st.inc = some (st1, id)) :
    (∀ (rid : RequestId) (rsp : GotoDefinitionResponse),
        refsScript q = .response ⟨rid, some (.refs rsp), none⟩ → refs_cnt rsp = 0 →
        findings (scan_loop refsScript st q (sym :: rest)).events
          = (sym.location.uri, sym.name)
              :: findings (scan_loop refsScript st1 (q + 1) rest).events ∧
        (scan_loop refsScript st q (sym :: rest)).outcome
          = (scan_loop refsScript st1 (q + 1) rest).outcome) ∧
    (∀ (rid : RequestId) (rsp : GotoDefinitionResponse),
        refsScript q = .response ⟨rid, some (.refs rsp), none⟩ → 1 ≤ refs_cnt rsp →
        findings (scan_loop refsScript st q (sym :: rest)).events
          = findings (scan_loop refsScript st1 (q + 1) rest).events ∧
        (scan_loop refsScript st q (sym :: rest)).outcome
          = (scan_loop refsScript st1 (q + 1) rest).outcome) ∧
    (∀ rid : RequestId,
        refsScript q = .response ⟨rid, none, none⟩ →
        findings (scan_loop refsScript st q (sym :: rest)).events
          = findings (scan_loop refsScript st1 (q + 1) rest).events ∧
        (scan_loop refsScript st q (sym :: rest)).outcome
          = (scan_loop refsScript st1 (q + 1) rest).outcome) := by
  refine ⟨?_, ?_, ?_⟩
  · intro rid rsp hscript hcnt
    simp [scan_loop, hkind, hname, hpos, hinc, hscript, send_req, Message.as_resp,
      parseGotoDef, hcnt, findings_append, findings, List.filterMap_cons]
  · intro rid rsp hscript hcnt
    have hne : ¬refs_cnt rsp = 0 := by omega
    simp [scan_loop, hkind, hname, hpos, hinc, hscript, send_req, Message.as_resp,
      parseGotoDef, hne, findings_append, findings, List.filterMap_cons]
  · intro rid hscript
    simp [scan_loop, hkind, hname, hpos, hinc, hscript, send_req, Message.as_resp,
      findings_append, findings, List.filterMap_cons]

/-- Witness for C5 on concrete candidates: an empty answer yields the one
finding, a one-element answer yields none, an absent answer yields none. -/
theorem reference_classification_witness :
    (findings (scan_loop (fun _ => zeroRefsMsg) ⟨5⟩ 0 [sampleDeadSymbol]).events
        = (sampleDeadSymbol.location.uri, sampleDeadSymbol.name)
            :: findings (scan_loop (fun _ => zeroRefsMsg) ⟨6⟩ 1 []).events ∧
      (scan_loop (fun _ => zeroRefsMsg) ⟨5⟩ 0 [sampleDeadSymbol]).outcome
        = (scan_loop (fun _ => zeroRefsMsg) ⟨6⟩ 1 []).outcome) ∧
    (findings (scan_loop (fun _ => oneRefMsg) ⟨5⟩ 0 [sampleDeadSymbol]).events
        = findings (scan_loop (fun _ => oneRefMsg) ⟨6⟩ 1 []).events ∧
      (scan_loop (fun _ => oneRefMsg) ⟨5⟩ 0 [sampleDeadSymbol]).outcome
        = (scan_loop (fun _ => oneRefMsg) ⟨6⟩ 1 []).outcome) ∧
    (findings (scan_loop (fun _ => absentMsg) ⟨5⟩ 0 [sampleDeadSymbol]).events
        = findings (scan_loop (fun _ => absentMsg) ⟨6⟩ 1 []).events ∧
      (scan_loop (fun _ => absentMsg) ⟨5⟩ 0 [sampleDeadSymbol]).outcome
        = (scan_loop (fun _ => absentMsg) ⟨6⟩ 1 []).outcome) :=
  ⟨(reference_classification (fun _ => zeroRefsMsg) ⟨5⟩ ⟨6⟩ 0 6 sampleDeadSymbol []
        ⟨1, 8⟩ rfl (by decide) (by decide) (by decide)).1 0 (.array []) rfl rfl,
    (reference_classification (fun _ => oneRefMsg) ⟨5⟩ ⟨6⟩ 0 6 sampleDeadSymbol []
        ⟨1, 8⟩ rfl (by decide) (by decide) (by decide)).2.1 0 (.array [sampleLoc]) rfl (by decide),
    (reference_classification (fun _ => absentMsg) ⟨5⟩ ⟨6⟩ 0 6 sampleDeadSymbol []
        ⟨1, 8⟩ rfl (by decide) (by decide) (by decide)).2.2 0 rfl⟩

/-- Claim C6: a symbol returned by the workspace search is queried for references
exactly when its kind is FUNCTION and its name is not "main": otherwise the
loop moves to the next candidate without producing any event or consuming an
id; in the queried case, when the checked character shift stays within `u32`,
the first event produced is the write of the references request for that
symbol (fresh id, shifted position, include-declaration false); and when the
shift overflows, the run panics there with nothing written — the query
position is computed before any id is allocated or any request sent. -/
theorem candidate_filter (refsScript : Nat → Message) (st : ReqId) (q : Nat)
    (sym : SymbolInformation) (rest : List SymbolInformation) :
    (sym.kind ≠ SymbolKind.FUNCTION ∨ sym.name = "main" →
        scan_loop refsScript st q (sym :: rest) = scan_loop refsScript st q rest) ∧
    (∀ (st1 : ReqId) (id : RequestId) (p : Position),
        sym.kind = SymbolKind.FUNCTION → sym.name ≠ "main" →
        queryPosition sym.location = some p →
        st.inc = some (st1, id) →
        ∃ tail, (scan_loop refsScript st q (sym :: rest)).events
          = Event.write (.request ⟨id, referencesMethod,
              .refParams ⟨sym.location.uri, p, false⟩⟩)
            :: tail) ∧
    (sym.kind = SymbolKind.FUNCTION → sym.name ≠ "main" →
        queryPosition sym.location = none →
        scan_loop refsScript st q (sym :: rest)
          = ⟨[], .error .charOverflow, st⟩) := by
  refine ⟨?_, ?_, ?_⟩
  · intro h
    rcases h with h | h
    · simp [scan_loop, h]
    · simp [scan_loop, h]
  · intro st1 id p hkind hname hpos hinc
    simp only [scan_loop, hkind, hname, hpos, hinc, if_false]
    split
    · next h => exact absurd rfl h
    · split
      · simp only [send_req_events]
        exact ⟨_, rfl⟩
      · simp only [send_req_events, List.cons_append]
        exact ⟨_, rfl⟩
      · split
        · simp only [send_req_events]
          exact ⟨_, rfl⟩
        · simp only [send_req_events, List.cons_append]
          exact ⟨_, rfl⟩
  · intro hkind hname hpos
    simp [scan_loop, hkind, hname, hpos]

/-- Witness for C6: the symbol "main" is skipped without a query, a concrete
in-bounds candidate's first event is the references request write, and a
concrete overflow-position candidate aborts with nothing written. -/
theorem candidate_filter_witness :
    (scan_loop (fun _ => zeroRefsMsg) ⟨5⟩ 0 [sampleMainSymbol]
      = scan_loop (fun _ => zeroRefsMsg) ⟨5⟩ 0 []) ∧
    (∃ tail, (scan_loop (fun _ => zeroRefsMsg) ⟨5⟩ 0 [sampleDeadSymbol]).events
      = Event.write (.request ⟨6, referencesMethod,
          .refParams ⟨sampleDeadSymbol.location.uri, ⟨1, 8⟩, false⟩⟩) :: tail) ∧
    (scan_loop (fun _ => zeroRefsMsg) ⟨5⟩ 0 [sampleOverflowSymbol]
      = ⟨[], .error .charOverflow, ⟨5⟩⟩) :=
  ⟨(candidate_filter (fun _ => zeroRefsMsg) ⟨5⟩ 0 sampleMainSymbol []).1
      (Or.inr rfl),
    (candidate_filter (fun _ => zeroRefsMsg) ⟨5⟩ 0 sampleDeadSymbol []).2.1
      ⟨6⟩ 6 ⟨1, 8⟩ rfl (by decide) (by decide) (by decide),
    (candidate_filter (fun _ => zeroRefsMsg) ⟨5⟩ 0 sampleOverflowSymbol []).2.2
      rfl (by decide) (by decide)⟩

/-- Claim C10: for a queried candidate (function symbol not named "main",
in-bounds query position, fresh id), a present references answer that is a
single scalar location is counted as exactly one reference, so the candidate
is classified live: no finding is emitted for it and the scan proceeds to the
remaining candidates. -/
theorem scalar_reference_counts_as_live (refsScript : Nat → Message)
    (st st1 : ReqId) (q : Nat) (id : RequestId) (sym : SymbolInformation)
    (rest : List SymbolInformation) (p : Position) (loc : Location)
    (rid : RequestId)
    (hkind : sym.kind = SymbolKind.FUNCTION) (hname : sym.name ≠ "main")
    (hpos : queryPosition sym.location = some p)
    (hinc : st.inc = some (st1, id))
    (hscript : refsScript q = .response ⟨rid, some (.refs (.scalar loc)), none⟩) :
    refs_cnt (.scalar loc) = 1 ∧
    findings (scan_loop refsScript st q (sym :: rest)).events
      = findings (scan_loop refsScript st1 (q + 1) rest).events ∧
    (scan_loop refsScript st q (sym :: rest)).outcome
      = (scan_loop refsScript st1 (q + 1) rest).outcome := by
  refine ⟨rfl, ?_⟩
  simp [scan_loop, hkind, hname, hpos, hinc, hscript, send_req, Message.as_resp,
    parseGotoDef, refs_cnt, findings_append, findings, List.filterMap_cons]

/-- Witness for C10 on a concrete candidate and scalar answer. -/
theorem scalar_reference_counts_as_live_witness :
    refs_cnt (.scalar sampleLoc) = 1 ∧
    findings (scan_loop (fun _ => scalarRefMsg) ⟨5⟩ 0 [sampleDeadSymbol]).events
      = findings (scan_loop (fun _ => scalarRefMsg) ⟨6⟩ 1 []).events ∧
    (scan_loop (fun _ => scalarRefMsg) ⟨5⟩ 0 [sampleDeadSymbol]).outcome
      = (scan_loop (fun _ => scalarRefMsg) ⟨6⟩ 1 []).outcome :=
  scalar_reference_counts_as_live (fun _ => scalarRefMsg) ⟨5⟩ ⟨6⟩ 0 6
    sampleDeadSymbol [] ⟨1, 8⟩ sampleLoc 0 rfl (by decide) (by decide)
    (by decide) rfl

/-- Claim C8: in every run that reaches teardown (the whole test returns success),
the shutdown request is written and its response read strictly before the
exit notification is written: the trace ends with exactly those three
events in that order, and the only notification written earlier — however
many findings the scan produced — is "initialized", so no exit notification
occurs before the shutdown exchange. -/
theorem shutdown_precedes_exit_notification (script : RunScript)
    (trace : List Event)
    (h : find_dead_code_in_cargo_workspace script = (trace, .ok ())) :
    ∃ (pre : List Event) (id : RequestId),
      trace = pre ++ [Event.write (.request ⟨id, "shutdown", Value.null⟩),
                      Event.read script.shutdownResp,
                      Event.write (.notification ⟨"exit", Value.null⟩)] ∧
      notifWrites pre = [⟨"initialized", initedNotifParams⟩] := by
  unfold find_dead_code_in_cargo_workspace at h
  dsimp only at h
  split at h
  · simp at h
  · split at h
    · simp at h
    · split at h
      · simp at h
      · simp at h
      · split at h
        · simp at h
        · simp at h
        · split at h
          · simp at h
          · unfold Ctx.exit at h
            split at h
            · simp at h
            · dsimp only at h
              split at h
              · simp at h
              · dsimp only at h
                rw [Prod.mk.injEq] at h
                obtain ⟨htrace, -⟩ := h
                subst htrace
                rw [send_req_events, send_req_events]
                simp only [List.cons_append, List.nil_append]
                refine ⟨_, _, rfl, ?_⟩
                simp only [notifWrites_append, scan_loop_notifWrites,
                  init_ok_notifWrites script ⟨0⟩ (by assumption)]
                simp [notifWrites, List.filterMap_cons]

/-- Witness for C8: a concrete successful run over an empty workspace. -/
theorem shutdown_precedes_exit_notification_witness :
    ∃ (pre : List Event) (id : RequestId),
      (find_dead_code_in_cargo_workspace sampleScript).1
        = pre ++ [Event.write (.request ⟨id, "shutdown", Value.null⟩),
                  Event.read sampleScript.shutdownResp,
                  Event.write (.notification ⟨"exit", Value.null⟩)] ∧
      notifWrites pre = [⟨"initialized", initedNotifParams⟩] :=
  shutdown_precedes_exit_notification sampleScript
    (find_dead_code_in_cargo_workspace sampleScript).1 (by decide)

end LspClient
